import Mathlib

/-!
Verification of the client-side session/state logic of `src/app.py`
(a Streamlit chat dashboard talking to an HTTP JSON API).

The embedding models:
  * JSON values as an inductive type `Json` (Python dicts/lists/scalars as
    parsed by `response.json()`);
  * the network as an oracle `NetOutcome` per request (either a completed
    HTTP exchange carrying a status code and a parsed body, or a raised
    `requests` exception / body-parse failure);
  * `st.session_state` as the record `SessionState`; floats are modelled as
    exact rationals `ℚ`; timestamps as opaque strings;
  * each UI handler as a pure function of the state, the user inputs and the
    server oracle. A handler that can raise an uncaught Python exception
    returns `Except SessionState SessionState`, where `.error s` means the
    script run aborted with the (persisted) session state `s`.
-/

/-- Parsed JSON values, as produced by `response.json()` in `app.py`.
Objects are association lists with Python-dict key lookup. -/
inductive Json where
  | null : Json
  | bool (b : Bool) : Json
  | num (q : ℚ) : Json
  | str (s : String) : Json
  | arr (elems : List Json) : Json
  | obj (fields : List (String × Json)) : Json
deriving Repr

/-- Key lookup on a JSON object (`d[k]` / `d.get(k)` on a Python dict);
`none` on a missing key or a non-object. -/
def Json.lookupKey : Json → String → Option Json
  | .obj kvs, k => kvs.lookup k
  | _, _ => none

/-- Python `k in d` for a dict `d`. -/
def Json.hasKey (j : Json) (k : String) : Bool := (j.lookupKey k).isSome

/-- The value at key `k`, defaulting to `null` (used only under `hasKey`). -/
def Json.getD (j : Json) (k : String) : Json := (j.lookupKey k).getD .null

/-- Whether the value is a Python dict. -/
def Json.isObj : Json → Bool
  | .obj _ => true
  | _ => false

/-- The error object `\x7b"error": msg\x7d` the client functions build in
their `except` branches. -/
def errObj (msg : String) : Json := .obj [("error", .str msg)]

/-- Digits to a natural number (helper for the Python `float(str)` model). -/
def digitsToNat (l : List Char) : Nat :=
  l.foldl (fun n c => n * 10 + (c.toNat - 48)) 0

/-- Python `float` applied to a string: optional sign, digits, optional
fractional part. (Python additionally accepts exponents, `inf`/`nan` and
surrounding whitespace; no theorem below exercises those forms.) -/
def pyFloatOfString (s : String) : Option ℚ :=
  let cs := s.toList
  let signed : ℚ × List Char :=
    match cs with
    | '-' :: r => (-1, r)
    | '+' :: r => (1, r)
    | _ => (1, cs)
  let intPart := signed.2.takeWhile Char.isDigit
  let rest := signed.2.dropWhile Char.isDigit
  match rest with
  | [] => if intPart.isEmpty then none else some (signed.1 * digitsToNat intPart)
  | '.' :: frac =>
      if frac.all Char.isDigit && !(intPart.isEmpty && frac.isEmpty) then
        some (signed.1 * ((digitsToNat intPart : ℚ) +
          (digitsToNat frac : ℚ) / (10 : ℚ) ^ frac.length))
      else none
  | _ => none

/-- Python `float(x)` on a parsed-JSON value: `some q` when the conversion
succeeds, `none` when it raises (`TypeError` on `None`/lists/dicts,
`ValueError` on a non-numeric string). -/
def pyFloat : Json → Option ℚ
  | .num q => some q
  | .bool b => some (if b then 1 else 0)
  | .str s => pyFloatOfString s
  | _ => none

/-- Python `str.title()`: the first letter of each alphabetic run is
upper-cased, the rest lower-cased (ASCII model of Python's unicode rule). -/
def pyTitleGo : Bool → List Char → List Char
  | _, [] => []
  | prevAlpha, c :: cs =>
      (if c.isAlpha then (if prevAlpha then c.toLower else c.toUpper) else c)
        :: pyTitleGo c.isAlpha cs

/-- Python `str.title()` on a string. -/
def pyTitle (s : String) : String := ⟨pyTitleGo false s.toList⟩

/-- Python `str()` of a parsed-JSON value, as interpolated by the f-string in
the export handler. Scalar cases are modelled; the rendering of containers
and the decimal formatting of numbers are simplified placeholders (every
message content a theorem below touches is a JSON string). -/
def pyStr : Json → String
  | .str s => s
  | .bool b => if b then "True" else "False"
  | .null => "None"
  | .num q => toString q
  | .arr _ => "[...]"
  | .obj _ => "\x7b...\x7d"

/-- One chat bubble as stored in `st.session_state.chat_history`: a dict with
`role`, `content` and (for locally appended messages) a `timestamp`.
`content` keeps the raw JSON value the code stores (`response["response"]`
may be any JSON value). -/
structure Message where
  role : String
  content : Json
  timestamp : Option String
deriving Repr

/-- The mutable client state (`st.session_state` of `app.py`, lines 17-29,
plus the sidebar's model selection, which Streamlit keeps in widget state).
`total_cost` is the float accumulator, modelled exactly over `ℚ`;
`last_activity` is the `datetime.now()` value, modelled as an opaque string. -/
structure SessionState where
  session_id : Option String
  chat_history : List Message
  user_address : String
  total_cost : ℚ
  message_count : Nat
  last_activity : String
  selected_model : Nat
deriving Repr

/-- The initial session state (lines 17-29; `last_activity` is the startup
timestamp, abstracted; model selection defaults to the first catalog key). -/
def initState : SessionState :=
  { session_id := none
    chat_history := []
    user_address := ""
    total_cost := 0
    message_count := 0
    last_activity := ""
    selected_model := 0 }

/-- Python truthiness of `st.session_state.session_id`
(`None` and `""` are falsy, any other string truthy). -/
def truthyId : Option String → Bool
  | none => false
  | some s => !s.isEmpty

/-- Outcome of one HTTP request, as seen through `requests` + `.json()`:
either the exchange completed with a status code and a parseable JSON body,
or an exception was raised (network failure, timeout, or `.json()` failing
on a malformed body). -/
inductive NetOutcome where
  | ok (status : Nat) (body : Json) : NetOutcome
  | exn : NetOutcome

/-- `check_eligibility` (lines 46-54): returns the parsed body of the
response regardless of its HTTP status; any raised exception is normalized
to an error object. The request parameters do not influence the modelled
result; `out` is the oracle for this exchange. -/
def check_eligibility (_user_address : String) (_model_id : Nat) :
    NetOutcome → Json
  | .ok _ body => body
  | .exn => errObj "Unable to check eligibility"

/-- `get_credits` (lines 56-61). -/
def get_credits (_user_address : String) : NetOutcome → Json
  | .ok _ body => body
  | .exn => errObj "Unable to fetch credits"

/-- `get_models` (lines 63-68). -/
def get_models : NetOutcome → Json
  | .ok _ body => body
  | .exn => errObj "Unable to fetch models"

/-- `send_chat_message` (lines 70-80). -/
def send_chat_message (_user_address : String) (_model_id : Nat)
    (_message _session_id : String) : NetOutcome → Json
  | .ok _ body => body
  | .exn => errObj "Unable to send message"

/-- `get_chat_history` (lines 82-87). -/
def get_chat_history (_session_id : String) : NetOutcome → Json
  | .ok _ body => body
  | .exn => errObj "Unable to fetch history"

/-- `clear_session` (lines 89-94): true exactly when the DELETE request
completed with status 200; exceptions yield false. -/
def clear_session (_session_id : String) : NetOutcome → Bool
  | .ok status _ => status == 200
  | .exn => false

/-- `check_health` (lines 39-44): `(status == 200, body if 200 else None)`;
exceptions (including a malformed body) yield `(false, none)`. -/
def check_health : NetOutcome → Bool × Option Json
  | .ok status body => (status == 200, if status == 200 then some body else none)
  | .exn => (false, none)

/-- Phase 1 of the chat-input handler (lines 215-228), everything that runs
before `send_chat_message` is issued: the optimistic append of the user
message (role `user`, timestamp `ts` = the call-time `format_timestamp()`),
the `message_count` increment, the `last_activity` update, and — when no
truthy session id exists — the lazy creation of a fresh `uuid4` id, modelled
by the oracle parameter `fresh`. -/
def chatOptimistic (prompt ts now fresh : String) (s : SessionState) :
    SessionState :=
  let s₁ : SessionState :=
    { s with
      chat_history := s.chat_history ++
        [{ role := "user", content := .str prompt, timestamp := some ts }]
      message_count := s.message_count + 1
      last_activity := now }
  if truthyId s₁.session_id then s₁ else { s₁ with session_id := some fresh }

/-- The cost value added on a successful chat exchange: `float(resp["cost"])`
when a `cost` key is present and converts, 0 otherwise. -/
def chatCost (resp : Json) : ℚ :=
  if resp.hasKey "cost" then (pyFloat (resp.getD "cost")).getD 0 else 0

/-- Phase 2 of the chat-input handler (lines 234-252), run on the parsed
response of `send_chat_message`:
  * a dict containing `response` appends the assistant message and, when a
    `cost` key is present, adds `float(resp["cost"])` to `total_cost` —
    `.error` when that conversion raises (the assistant append persists);
  * a dict without `response` shows the error banner and leaves the state
    untouched;
  * a non-dict response raises on the `in` test / `[...]` index / `.get`
    call before any further mutation. -/
def chatOnResponse (resp : Json) (aiTs : String) (s : SessionState) :
    Except SessionState SessionState :=
  if resp.isObj then
    if resp.hasKey "response" then
      let s₁ : SessionState :=
        { s with
          chat_history := s.chat_history ++
            [{ role := "assistant", content := resp.getD "response",
               timestamp := some aiTs }] }
      if resp.hasKey "cost" then
        match pyFloat (resp.getD "cost") with
        | some c => .ok { s₁ with total_cost := s₁.total_cost + c }
        | none => .error s₁
      else .ok s₁
    else .ok s
  else .error s

/-- The whole chat-input handler (lines 211-252) for a submitted prompt:
the guard at line 212 (empty wallet address → error banner only), then the
optimistic phase, the network call (whose parsed result is the oracle
`resp`), then the response phase. -/
def chatInputHandler (prompt ts now fresh : String) (resp : Json)
    (aiTs : String) (s : SessionState) : Except SessionState SessionState :=
  if s.user_address.isEmpty then .ok s
  else chatOnResponse resp aiTs (chatOptimistic prompt ts now fresh s)

/-- The session id `st.session_state.session_id` holds at line 232, i.e. the
id sent with the `send_chat_message` request. -/
def requestSessionId (prompt ts now fresh : String) (s : SessionState) :
    Option String :=
  (chatOptimistic prompt ts now fresh s).session_id

/-- The clear-session button handler (lines 172-181): the button is guarded
by a truthy session id; `ack` is the boolean `clear_session` returned. On
`true` the four fields are reset; on `false` only the error banner shows. -/
def clearButtonAction (ack : Bool) (s : SessionState) : SessionState :=
  if truthyId s.session_id then
    if ack then
      { s with
        chat_history := []
        session_id := none
        total_cost := 0
        message_count := 0 }
    else s
  else s

/-- The auto-refresh block (lines 279-286): when a truthy session id exists,
`get_chat_history` is called and, when the parsed result is a dict with a
`history` list strictly longer than the local log, the local log is replaced
wholesale. `histData` is the parsed history list (`none` covers a missing
`history` key, an error result, or any exception swallowed by the
`except: pass`). -/
def autoRefresh (histData : Option (List Message)) (s : SessionState) :
    SessionState :=
  if truthyId s.session_id then
    match histData with
    | some h =>
        if s.chat_history.length < h.length then { s with chat_history := h }
        else s
    | none => s
  else s

/-- One line of the exported transcript (line 261):
`f"..."` of `msg['role'].title()` and `msg['content']`. -/
def exportLine (m : Message) : String := pyTitle m.role ++ ": " ++ pyStr m.content

/-- Python `sep.join(pieces)`. -/
def pyJoin (sep : String) : List String → String
  | [] => ""
  | [x] => x
  | x :: xs => x ++ sep ++ pyJoin sep xs

/-- The export-chat handler (lines 259-269): a nonempty history is rendered
with `"\n\n".join(...)` and offered as a download (`some text`); an empty
history yields only the "No chat history to export" warning (`none`). -/
def exportChat (msgs : List Message) : Option String :=
  if msgs.isEmpty then none
  else some (pyJoin "\n\n" (msgs.map exportLine))

/-- Modelled from the spec: the export rendering as §4.3 words it — each
message becomes a `"<Role>: <content>"` line and consecutive lines are
joined by a blank line. Compared against `exportChat` below. -/
def renderSpecExport : List Message → String
  | [] => ""
  | [m] => exportLine m
  | m :: m₂ :: ms => exportLine m ++ "\n\n" ++ renderSpecExport (m₂ :: ms)

/-- One user-triggered operation of the Session Client, with the oracles it
consumes (timestamps, the fresh uuid, the parsed server data). `passive`
covers the operations that never mutate the session state (health check,
credits, eligibility, export). -/
inductive Event where
  | chat (prompt ts now fresh : String) (resp : Json) (aiTs : String) : Event
  | clearBtn (ack : Bool) : Event
  | refresh (histData : Option (List Message)) : Event
  | setAddress (a : String) : Event
  | passive : Event

/-- The session state a handler run leaves behind: a run that aborts with an
uncaught exception still persists the `st.session_state` mutations made
before the raise, so the carried state is kept either way. -/
def resultState : Except SessionState SessionState → SessionState
  | .ok s => s
  | .error s => s

/-- The state transition of one operation. -/
def step : Event → SessionState → SessionState
  | .chat prompt ts now fresh resp aiTs, s =>
      resultState (chatInputHandler prompt ts now fresh resp aiTs s)
  | .clearBtn ack, s => clearButtonAction ack s
  | .refresh histData, s => autoRefresh histData s
  | .setAddress a, s => { s with user_address := a }
  | .passive, s => s

/-- Inputs of one `sendMessage` call in a trace (prompt, timestamps, fresh-id
oracle, parsed server response). -/
structure ChatCall where
  prompt : String
  ts : String
  now : String
  fresh : String
  resp : Json
  aiTs : String

/-- A `ChatCall` as an event. -/
def ChatCall.toEvent (c : ChatCall) : Event :=
  .chat c.prompt c.ts c.now c.fresh c.resp c.aiTs

/-- A successful chat exchange as C3 uses it: the parsed response is a dict
containing `response`, and any `cost` it carries converts under `float`. -/
def goodChat (resp : Json) : Prop :=
  resp.isObj = true ∧ resp.hasKey "response" = true ∧
    (resp.hasKey "cost" = true → (pyFloat (resp.getD "cost")).isSome = true)

/-- Run a sequence of chat submissions from a state. -/
def runChats (calls : List ChatCall) (s : SessionState) : SessionState :=
  calls.foldl (fun st c => step c.toEvent st) s

/-- A sample state with a live session, used to instantiate theorems with
hypotheses at concrete inputs. -/
def sLive : SessionState :=
  { session_id := some "sid-1"
    chat_history :=
      [{ role := "user", content := .str "hello", timestamp := some "10:00:00" },
       { role := "assistant", content := .str "hi there", timestamp := some "10:00:01" }]
    user_address := "0xABC"
    total_cost := 1/2
    message_count := 1
    last_activity := "10:00:01"
    selected_model := 1 }

/-- C1: the clear-chat-history handler is atomic: with a live session, a
server acknowledgement resets sessionId, messages, totalCost and
messageCount together (and touches nothing else), while a failed
acknowledgement leaves the whole state unchanged. -/
theorem clearSession_atomic (s : SessionState)
    (hsid : truthyId s.session_id = true) :
    clearButtonAction true s =
      { s with chat_history := [], session_id := none,
               total_cost := 0, message_count := 0 } ∧
    clearButtonAction false s = s := by
  constructor <;> simp [clearButtonAction, hsid]

theorem clearSession_atomic_witness :
    truthyId sLive.session_id = true ∧
    (clearButtonAction true sLive =
      { sLive with chat_history := [], session_id := none,
                   total_cost := 0, message_count := 0 } ∧
     clearButtonAction false sLive = sLive) :=
  ⟨rfl, clearSession_atomic sLive rfl⟩

theorem autoRefresh_frame (histData : Option (List Message))
    (s : SessionState) :
    (autoRefresh histData s).session_id = s.session_id ∧
    (autoRefresh histData s).total_cost = s.total_cost ∧
    (autoRefresh histData s).message_count = s.message_count ∧
    (autoRefresh histData s).user_address = s.user_address ∧
    (autoRefresh histData s).selected_model = s.selected_model ∧
    (autoRefresh histData s).last_activity = s.last_activity := by
  unfold autoRefresh
  rcases histData with _ | h <;> repeat' split
  all_goals simp

/-- C10: the auto-refresh reconciliation mutates only `chat_history`: the
session id, cost total, message count, wallet address, model selection and
last-activity timestamp all pass through unchanged, whatever the fetched
history is. -/
theorem reconciliation_frame (histData : Option (List Message))
    (s : SessionState) :
    (autoRefresh histData s).session_id = s.session_id ∧
    (autoRefresh histData s).total_cost = s.total_cost ∧
    (autoRefresh histData s).message_count = s.message_count ∧
    (autoRefresh histData s).user_address = s.user_address ∧
    (autoRefresh histData s).selected_model = s.selected_model ∧
    (autoRefresh histData s).last_activity = s.last_activity :=
  autoRefresh_frame histData s

/-- C7: with a live session, reconciliation replaces the local log wholesale
by the fetched history exactly when that history is strictly longer, and is
a no-op both when it is no longer and when no history list was obtained. -/
theorem reconciliation_replace_iff (histData : Option (List Message))
    (s : SessionState) (hsid : truthyId s.session_id = true) :
    (∀ h, histData = some h → s.chat_history.length < h.length →
        autoRefresh histData s = { s with chat_history := h }) ∧
    (∀ h, histData = some h → h.length ≤ s.chat_history.length →
        autoRefresh histData s = s) ∧
    (histData = none → autoRefresh histData s = s) := by
  refine ⟨fun h hh hlen => ?_, fun h hh hlen => ?_, fun hh => ?_⟩ <;> subst hh
  · simp [autoRefresh, hsid, hlen]
  · simp [autoRefresh, hsid]
    omega
  · simp [autoRefresh, hsid]

theorem reconciliation_replace_iff_witness :
    truthyId sLive.session_id = true ∧
    (autoRefresh (some []) sLive = sLive) :=
  ⟨rfl, (reconciliation_replace_iff (some []) sLive rfl).2.1 [] rfl (by simp [sLive])⟩

/-- The user message appended by the optimistic phase. -/
def userMsg (prompt ts : String) : Message :=
  { role := "user", content := .str prompt, timestamp := some ts }

/-- The assistant message appended on a successful response. -/
def assistantMsg (resp : Json) (aiTs : String) : Message :=
  { role := "assistant", content := resp.getD "response", timestamp := some aiTs }

theorem chatOptimistic_chat_history (prompt ts now fresh : String)
    (s : SessionState) :
    (chatOptimistic prompt ts now fresh s).chat_history
      = s.chat_history ++ [userMsg prompt ts] := by
  unfold chatOptimistic userMsg
  dsimp only
  split <;> rfl

theorem chatOptimistic_total_cost (prompt ts now fresh : String)
    (s : SessionState) :
    (chatOptimistic prompt ts now fresh s).total_cost = s.total_cost := by
  unfold chatOptimistic
  dsimp only
  split <;> rfl

theorem chatOptimistic_message_count (prompt ts now fresh : String)
    (s : SessionState) :
    (chatOptimistic prompt ts now fresh s).message_count
      = s.message_count + 1 := by
  unfold chatOptimistic
  dsimp only
  split <;> rfl

theorem chatOptimistic_user_address (prompt ts now fresh : String)
    (s : SessionState) :
    (chatOptimistic prompt ts now fresh s).user_address = s.user_address := by
  unfold chatOptimistic
  dsimp only
  split <;> rfl

/-- Phase 2 never touches the session id, in runs that finish and in runs
that abort alike. -/
theorem chatOnResponse_session_id (resp : Json) (aiTs : String)
    (s : SessionState) :
    (∀ s₂, chatOnResponse resp aiTs s = .ok s₂ → s₂.session_id = s.session_id) ∧
    (∀ s₂, chatOnResponse resp aiTs s = .error s₂ → s₂.session_id = s.session_id) := by
  unfold chatOnResponse
  constructor <;> intro s₂ h <;>
    (repeat' split at h) <;> simp_all <;> subst h <;> rfl

/-- On a successful response (a dict with a `response` key whose optional
`cost` converts), phase 2 appends the assistant message and adds the cost. -/
theorem chatOnResponse_success (resp : Json) (aiTs : String) (s : SessionState)
    (hobj : resp.isObj = true) (hresp : resp.hasKey "response" = true)
    (hcost : resp.hasKey "cost" = true → (pyFloat (resp.getD "cost")).isSome = true) :
    chatOnResponse resp aiTs s =
      .ok { s with
              chat_history := s.chat_history ++ [assistantMsg resp aiTs],
              total_cost := s.total_cost + chatCost resp } := by
  unfold chatOnResponse chatCost assistantMsg
  simp only [hobj, hresp, if_true]
  by_cases hc : resp.hasKey "cost" = true
  · simp only [hc, if_true]
    rcases hq : pyFloat (resp.getD "cost") with _ | q
    · exact absurd (hcost hc) (by simp [hq])
    · simp
  · simp only [Bool.not_eq_true] at hc
    simp [hc]

theorem chatHandler_success (prompt ts now fresh aiTs : String)
    (resp : Json) (s : SessionState)
    (haddr : s.user_address.isEmpty = false)
    (hobj : resp.isObj = true) (hresp : resp.hasKey "response" = true)
    (hcost : resp.hasKey "cost" = true → (pyFloat (resp.getD "cost")).isSome = true) :
    (chatOptimistic prompt ts now fresh s).chat_history
      = s.chat_history ++ [userMsg prompt ts] ∧
    ∃ s₂, chatInputHandler prompt ts now fresh resp aiTs s = .ok s₂ ∧
      s₂.chat_history
        = s.chat_history ++ [userMsg prompt ts, assistantMsg resp aiTs] ∧
      s₂.total_cost = s.total_cost + chatCost resp := by
  refine ⟨chatOptimistic_chat_history prompt ts now fresh s, ?_⟩
  unfold chatInputHandler
  simp only [haddr, Bool.false_eq_true, if_false]
  rw [chatOnResponse_success resp aiTs _ hobj hresp hcost]
  refine ⟨_, rfl, ?_, ?_⟩
  · simp [chatOptimistic_chat_history, List.append_assoc]
  · simp [chatOptimistic_total_cost]

/-- C4: on every chat submission with a nonempty wallet address, the user
message (role `user`, timestamp = the call-time stamp) is already in the
local log in the state from which `send_chat_message` is issued; and when
the result is a dict carrying `response` (with any `cost` convertible), the
handler finishes normally having appended the assistant message after it and
added the returned cost to `totalCost`. -/
theorem sendMessage_success_effects (prompt ts now fresh aiTs : String)
    (resp : Json) (s : SessionState)
    (haddr : s.user_address.isEmpty = false)
    (hobj : resp.isObj = true) (hresp : resp.hasKey "response" = true)
    (hcost : resp.hasKey "cost" = true → (pyFloat (resp.getD "cost")).isSome = true) :
    (chatOptimistic prompt ts now fresh s).chat_history
      = s.chat_history ++ [userMsg prompt ts] ∧
    ∃ s₂, chatInputHandler prompt ts now fresh resp aiTs s = .ok s₂ ∧
      s₂.chat_history
        = s.chat_history ++ [userMsg prompt ts, assistantMsg resp aiTs] ∧
      s₂.total_cost = s.total_cost + chatCost resp :=
  chatHandler_success prompt ts now fresh aiTs resp s haddr hobj hresp hcost

theorem sendMessage_success_effects_witness :
    (sLive.user_address.isEmpty = false ∧
     (Json.obj [("response", Json.str "sure"), ("cost", Json.num (1/4))]).isObj = true ∧
     (Json.obj [("response", Json.str "sure"), ("cost", Json.num (1/4))]).hasKey "response" = true) ∧
    ((chatOptimistic "hello again" "10:05:00" "n" "u2" sLive).chat_history
      = sLive.chat_history ++ [userMsg "hello again" "10:05:00"] ∧
    ∃ s₂, chatInputHandler "hello again" "10:05:00" "n" "u2"
        (Json.obj [("response", Json.str "sure"), ("cost", Json.num (1/4))])
        "10:05:02" sLive = .ok s₂ ∧
      s₂.chat_history = sLive.chat_history ++
        [userMsg "hello again" "10:05:00",
         assistantMsg (Json.obj [("response", Json.str "sure"), ("cost", Json.num (1/4))]) "10:05:02"] ∧
      s₂.total_cost = sLive.total_cost
        + chatCost (Json.obj [("response", Json.str "sure"), ("cost", Json.num (1/4))])) :=
  ⟨⟨rfl, rfl, rfl⟩,
    sendMessage_success_effects "hello again" "10:05:00" "n" "u2" "10:05:02"
      (Json.obj [("response", Json.str "sure"), ("cost", Json.num (1/4))])
      sLive rfl rfl rfl (fun _ => rfl)⟩

/-- C5: when the chat call yields an error result (a dict with no `response`
key, e.g. the normalized transport error), the handler finishes normally —
the error is shown, not thrown — the optimistically appended user message
stays in the log, the message counter keeps its increment, and `totalCost`
is untouched. -/
theorem sendMessage_error_effects (prompt ts now fresh aiTs : String)
    (resp : Json) (s : SessionState)
    (haddr : s.user_address.isEmpty = false)
    (hobj : resp.isObj = true) (hresp : resp.hasKey "response" = false) :
    ∃ s₂, chatInputHandler prompt ts now fresh resp aiTs s = .ok s₂ ∧
      s₂.chat_history = s.chat_history ++ [userMsg prompt ts] ∧
      s₂.total_cost = s.total_cost ∧
      s₂.message_count = s.message_count + 1 := by
  unfold chatInputHandler chatOnResponse
  simp only [haddr, Bool.false_eq_true, if_false, hobj, if_true, hresp]
  exact ⟨_, rfl, chatOptimistic_chat_history prompt ts now fresh s,
    chatOptimistic_total_cost prompt ts now fresh s,
    chatOptimistic_message_count prompt ts now fresh s⟩

theorem sendMessage_error_effects_witness :
    (sLive.user_address.isEmpty = false ∧
     (errObj "Unable to send message").isObj = true ∧
     (errObj "Unable to send message").hasKey "response" = false) ∧
    (∃ s₂, chatInputHandler "oops" "10:06:00" "n" "u3"
        (errObj "Unable to send message") "10:06:01" sLive = .ok s₂ ∧
      s₂.chat_history = sLive.chat_history ++ [userMsg "oops" "10:06:00"] ∧
      s₂.total_cost = sLive.total_cost ∧
      s₂.message_count = sLive.message_count + 1) :=
  ⟨⟨rfl, rfl, rfl⟩,
    sendMessage_error_effects "oops" "10:06:00" "n" "u3" "10:06:01"
      (errObj "Unable to send message") sLive rfl rfl rfl⟩

theorem step_session_id_chat (prompt ts now fresh : String) (resp : Json)
    (aiTs : String) (s : SessionState) :
    (step (.chat prompt ts now fresh resp aiTs) s).session_id
      = (if s.user_address.isEmpty then s.session_id
         else (chatOptimistic prompt ts now fresh s).session_id) := by
  unfold step chatInputHandler
  by_cases ha : s.user_address.isEmpty = true
  · simp [ha, resultState]
  · simp only [ha, Bool.false_eq_true, if_false]
    rcases hr : chatOnResponse resp aiTs (chatOptimistic prompt ts now fresh s)
      with s₂ | s₂
    · exact (chatOnResponse_session_id resp aiTs _).2 s₂ hr
    · exact (chatOnResponse_session_id resp aiTs _).1 s₂ hr

/-- C6: session-id laziness and stability. With a nonempty wallet address:
a submission on a session with no id stores exactly the one fresh identifier
generated before the network call and sends that same identifier with the
request; a submission on a session with a live id reuses it unchanged; and
no operation whatever replaces a live id — it survives every event
unchanged except a server-acknowledged clear, which resets it to absent. -/
theorem sessionId_lazy_once (prompt ts now fresh : String) (resp : Json)
    (aiTs : String) (s : SessionState)
    (haddr : s.user_address.isEmpty = false) :
    (s.session_id = none →
      requestSessionId prompt ts now fresh s = some fresh ∧
      (step (.chat prompt ts now fresh resp aiTs) s).session_id = some fresh) ∧
    (truthyId s.session_id = true →
      requestSessionId prompt ts now fresh s = s.session_id ∧
      (step (.chat prompt ts now fresh resp aiTs) s).session_id = s.session_id) ∧
    (∀ e : Event, truthyId s.session_id = true →
      (step e s).session_id = s.session_id ∨
        ((step e s).session_id = none ∧ e = .clearBtn true)) := by
  have hreq : ∀ h : truthyId s.session_id = false,
      requestSessionId prompt ts now fresh s = some fresh := by
    intro h
    unfold requestSessionId chatOptimistic
    dsimp only
    simp [h]
  have hreqt : ∀ h : truthyId s.session_id = true,
      requestSessionId prompt ts now fresh s = s.session_id := by
    intro h
    unfold requestSessionId chatOptimistic
    dsimp only
    simp [h]
  refine ⟨fun hn => ?_, fun ht => ?_, fun e ht => ?_⟩
  · have hf : truthyId s.session_id = false := by rw [hn]; rfl
    refine ⟨hreq hf, ?_⟩
    rw [step_session_id_chat, if_neg (by simp [haddr])]
    exact hreq hf
  · refine ⟨hreqt ht, ?_⟩
    rw [step_session_id_chat, if_neg (by simp [haddr])]
    exact hreqt ht
  · rcases e with ⟨p, t, n, f, r, a⟩ | ack | hd | a | _
    · left
      rw [step_session_id_chat]
      split
      · rfl
      · unfold chatOptimistic
        dsimp only
        simp [ht]
    · rcases ack with _ | _
      · left; simp [step, clearButtonAction, ht]
      · right; exact ⟨by simp [step, clearButtonAction, ht], rfl⟩
    · left; exact (autoRefresh_frame hd s).1
    · left; rfl
    · left; rfl

theorem sessionId_lazy_once_witness :
    ((SessionState.user_address { initState with user_address := "0xABC" }).isEmpty = false ∧
     SessionState.session_id { initState with user_address := "0xABC" } = none) ∧
    (requestSessionId "hello" "10:00:00" "n" "uuid-1"
        { initState with user_address := "0xABC" } = some "uuid-1" ∧
     (step (.chat "hello" "10:00:00" "n" "uuid-1"
          (Json.obj [("response", Json.str "hi there")]) "10:00:01")
        { initState with user_address := "0xABC" }).session_id = some "uuid-1") :=
  ⟨⟨rfl, rfl⟩,
    (sessionId_lazy_once "hello" "10:00:00" "n" "uuid-1"
        (Json.obj [("response", Json.str "hi there")]) "10:00:01"
        { initState with user_address := "0xABC" } rfl).1 rfl⟩

theorem chatOnResponse_user_address (resp : Json) (aiTs : String)
    (s : SessionState) :
    (resultState (chatOnResponse resp aiTs s)).user_address = s.user_address := by
  unfold chatOnResponse
  repeat' split
  all_goals rfl

theorem step_user_address_chat (prompt ts now fresh : String) (resp : Json)
    (aiTs : String) (s : SessionState) :
    (step (.chat prompt ts now fresh resp aiTs) s).user_address
      = s.user_address := by
  unfold step chatInputHandler
  by_cases ha : s.user_address.isEmpty = true
  · simp [ha, resultState]
  · simp only [ha, Bool.false_eq_true, if_false]
    rw [chatOnResponse_user_address]
    exact chatOptimistic_user_address prompt ts now fresh s

theorem chatOnResponse_result_total_cost (resp : Json) (aiTs : String)
    (s : SessionState) :
    (resultState (chatOnResponse resp aiTs s)).total_cost = s.total_cost ∨
    ∃ q, pyFloat (resp.getD "cost") = some q ∧
      (resultState (chatOnResponse resp aiTs s)).total_cost
        = s.total_cost + q := by
  unfold chatOnResponse
  repeat' split
  all_goals first
    | (left; rfl)
    | (right; exact ⟨_, by assumption, rfl⟩)

theorem step_total_cost_chat (prompt ts now fresh : String) (resp : Json)
    (aiTs : String) (s : SessionState) :
    (step (.chat prompt ts now fresh resp aiTs) s).total_cost = s.total_cost ∨
    ∃ q, pyFloat (resp.getD "cost") = some q ∧
      (step (.chat prompt ts now fresh resp aiTs) s).total_cost
        = s.total_cost + q := by
  unfold step chatInputHandler
  by_cases ha : s.user_address.isEmpty = true
  · left; simp [ha, resultState]
  · simp only [ha, Bool.false_eq_true, if_false]
    have h := chatOnResponse_result_total_cost resp aiTs
      (chatOptimistic prompt ts now fresh s)
    rw [chatOptimistic_total_cost] at h
    exact h

/-- C2 (amended): provided every `cost` value the server returns converts to
a non-negative number, `totalCost` never decreases across any operation
except a server-acknowledged session clear, which is the one operation that
resets it to 0. (As stated over arbitrary server responses, the claim is
false — see the counterexample — because the handler adds
`float(response["cost"])` with no sign check.) -/
theorem totalCost_monotone_unless_cleared (e : Event) (s : SessionState)
    (hcost : ∀ p ts now fresh resp aiTs, e = Event.chat p ts now fresh resp aiTs →
      ∀ q, pyFloat (resp.getD "cost") = some q → 0 ≤ q) :
    ((e = Event.clearBtn true ∧ truthyId s.session_id = true) →
        (step e s).total_cost = 0) ∧
    (¬(e = Event.clearBtn true ∧ truthyId s.session_id = true) →
        s.total_cost ≤ (step e s).total_cost) := by
  rcases e with ⟨p, ts, now, fresh, resp, aiTs⟩ | ack | hd | a | _
  · refine ⟨fun h => by simp at h, fun _ => ?_⟩
    rcases step_total_cost_chat p ts now fresh resp aiTs s with h | ⟨q, hq, h⟩
    · rw [h]
    · rw [h]
      have := hcost p ts now fresh resp aiTs rfl q hq
      linarith
  · rcases ack with _ | _
    · refine ⟨fun h => by simp at h, fun _ => ?_⟩
      show s.total_cost ≤ (clearButtonAction false s).total_cost
      unfold clearButtonAction
      split <;> simp
    · refine ⟨fun h => ?_, fun hn => ?_⟩
      · show (clearButtonAction true s).total_cost = 0
        simp [clearButtonAction, h.2]
      · show s.total_cost ≤ (clearButtonAction true s).total_cost
        have ht : truthyId s.session_id = false := by
          rcases hb : truthyId s.session_id with _ | _
          · rfl
          · exact absurd ⟨rfl, hb⟩ hn
        simp [clearButtonAction, ht]
  · exact ⟨fun h => by simp at h,
      fun _ => le_of_eq ((autoRefresh_frame hd s).2.1).symm⟩
  · exact ⟨fun h => by simp at h, fun _ => le_refl _⟩
  · exact ⟨fun h => by simp at h, fun _ => le_refl _⟩

theorem totalCost_monotone_unless_cleared_witness :
    ((Event.refresh none = Event.clearBtn true ∧
        truthyId sLive.session_id = true) →
      (step (Event.refresh none) sLive).total_cost = 0) ∧
    (¬(Event.refresh none = Event.clearBtn true ∧
        truthyId sLive.session_id = true) →
      sLive.total_cost ≤ (step (Event.refresh none) sLive).total_cost) :=
  totalCost_monotone_unless_cleared (Event.refresh none) sLive
    (fun _ _ _ _ _ _ h => by simp at h)

/-- A successful chat response carrying an explicit cost. -/
def chatOk (c : ℚ) : Json :=
  .obj [("response", .str "ok"), ("cost", .num c)]

/-- A state with the wallet address set (the sidebar input of line 124). -/
def sAddr : SessionState := { initState with user_address := "0xABC" }

/-- C2 fails as stated: a chat exchange whose response carries a negative
`cost` strictly decreases `totalCost` (the code adds
`float(response["cost"])` with no sign check), so `totalCost` is not a
monotone accumulator over all reachable states and operations. The
decreasing operation here is a `sendMessage`, not a session clear. -/
theorem totalCost_decreases_counterexample :
    (step (.chat "q2" "t2" "n2" "u1" (chatOk (-1)) "t3")
        (step (.chat "q1" "t1" "n1" "u1" (chatOk 1) "t1b") sAddr)).total_cost
      < (step (.chat "q1" "t1" "n1" "u1" (chatOk 1) "t1b") sAddr).total_cost := by
  obtain ⟨-, s₂, h₂, -, ht₂⟩ :=
    chatHandler_success "q1" "t1" "n1" "u1" "t1b" (chatOk 1) sAddr
      rfl rfl rfl (fun _ => rfl)
  have hs₂ : step (.chat "q1" "t1" "n1" "u1" (chatOk 1) "t1b") sAddr = s₂ := by
    show resultState (chatInputHandler "q1" "t1" "n1" "u1" (chatOk 1) "t1b" sAddr) = s₂
    rw [h₂]
    rfl
  have haddr₂ : s₂.user_address.isEmpty = false := by
    rw [← hs₂, step_user_address_chat]
    exact (rfl : sAddr.user_address.isEmpty = false)
  obtain ⟨-, s₃, h₃, -, ht₃⟩ :=
    chatHandler_success "q2" "t2" "n2" "u1" "t3" (chatOk (-1)) s₂
      haddr₂ rfl rfl (fun _ => rfl)
  have hs₃ : step (.chat "q2" "t2" "n2" "u1" (chatOk (-1)) "t3") s₂ = s₃ := by
    show resultState (chatInputHandler "q2" "t2" "n2" "u1" (chatOk (-1)) "t3" s₂) = s₃
    rw [h₃]
    rfl
  have hc1 : chatCost (chatOk 1) = 1 := rfl
  have hc2 : chatCost (chatOk (-1)) = -1 := rfl
  have hc0 : sAddr.total_cost = 0 := rfl
  rw [hs₂, hs₃, ht₃, ht₂, hc1, hc2, hc0]
  norm_num

theorem chat_step_good (c : ChatCall) (s : SessionState)
    (haddr : s.user_address.isEmpty = false) (hg : goodChat c.resp) :
    (step c.toEvent s).chat_history.length = s.chat_history.length + 2 ∧
    (step c.toEvent s).message_count = s.message_count + 1 ∧
    (step c.toEvent s).total_cost = s.total_cost + chatCost c.resp ∧
    (step c.toEvent s).user_address = s.user_address := by
  obtain ⟨ho, hr, hc⟩ := hg
  unfold ChatCall.toEvent step chatInputHandler
  simp only [haddr, Bool.false_eq_true, if_false]
  rw [chatOnResponse_success c.resp c.aiTs _ ho hr hc]
  refine ⟨?_, ?_, ?_, ?_⟩ <;>
    simp [resultState, chatOptimistic_chat_history, chatOptimistic_message_count,
      chatOptimistic_total_cost, chatOptimistic_user_address]

theorem runChats_stats (calls : List ChatCall) (s : SessionState)
    (haddr : s.user_address.isEmpty = false)
    (hg : ∀ c ∈ calls, goodChat c.resp) :
    (runChats calls s).chat_history.length
        = s.chat_history.length + 2 * calls.length ∧
    (runChats calls s).message_count = s.message_count + calls.length ∧
    (runChats calls s).total_cost
        = s.total_cost + (calls.map fun c => chatCost c.resp).sum ∧
    (runChats calls s).user_address = s.user_address := by
  induction calls generalizing s with
  | nil => simp [runChats]
  | cons c cs ih =>
    have hstep := chat_step_good c s haddr (hg c (by simp))
    have haddr₁ : (step c.toEvent s).user_address.isEmpty = false := by
      rw [hstep.2.2.2]
      exact haddr
    have ihs := ih (step c.toEvent s) haddr₁ (fun c₁ hc₁ => hg c₁ (by simp [hc₁]))
    have hrun : runChats (c :: cs) s = runChats cs (step c.toEvent s) := rfl
    rw [hrun]
    refine ⟨?_, ?_, ?_, ?_⟩
    · rw [ihs.1, hstep.1]
      simp only [List.length_cons]
      ring
    · rw [ihs.2.1, hstep.2.1]
      simp only [List.length_cons]
      omega
    · rw [ihs.2.2.1, hstep.2.2.1]
      simp only [List.map_cons, List.sum_cons]
      ring
    · rw [ihs.2.2.2, hstep.2.2.2]

/-- C3: starting from the fresh client state (with the wallet address
entered), any sequence of chat submissions in which every server result is a
successful one (a dict carrying `response`, with any `cost` convertible)
leaves the log with exactly two entries per accepted exchange —
`messages.length = 2 * messageCount` — and leaves `totalCost` equal to the
sum of the cost values those results carried. -/
theorem sendMessage_sequence_invariant (a : String) (calls : List ChatCall)
    (ha : a.isEmpty = false) (hg : ∀ c ∈ calls, goodChat c.resp) :
    (runChats calls { initState with user_address := a }).chat_history.length
      = 2 * (runChats calls { initState with user_address := a }).message_count ∧
    (runChats calls { initState with user_address := a }).total_cost
      = (calls.map fun c => chatCost c.resp).sum := by
  have h := runChats_stats calls { initState with user_address := a } ha hg
  refine ⟨?_, ?_⟩
  · rw [h.1, h.2.1]
    simp [initState]
  · rw [h.2.2.1]
    simp [initState]

/-- A first concrete exchange: the server answers and bills 1/4. -/
def call1 : ChatCall :=
  { prompt := "hello", ts := "10:00:00", now := "n1", fresh := "uuid-1",
    resp := chatOk (1/4), aiTs := "10:00:01" }

/-- A second concrete exchange: the server answers without a cost field. -/
def call2 : ChatCall :=
  { prompt := "more", ts := "10:01:00", now := "n2", fresh := "uuid-2",
    resp := .obj [("response", .str "sure")], aiTs := "10:01:01" }

theorem sendMessage_sequence_invariant_witness :
    (("0xABC" : String).isEmpty = false ∧
      ∀ c ∈ [call1, call2], goodChat c.resp) ∧
    ((runChats [call1, call2] { initState with user_address := "0xABC" }).chat_history.length
        = 2 * (runChats [call1, call2]
            { initState with user_address := "0xABC" }).message_count ∧
     (runChats [call1, call2] { initState with user_address := "0xABC" }).total_cost
        = ([call1, call2].map fun c => chatCost c.resp).sum) := by
  have hg : ∀ c ∈ [call1, call2], goodChat c.resp := by
    intro c hc
    rcases List.mem_cons.1 hc with h | h
    · subst h
      exact ⟨rfl, rfl, fun _ => rfl⟩
    · rcases List.mem_cons.1 h with h₁ | h₁
      · subst h₁
        refine ⟨rfl, rfl, fun hk => ?_⟩
        exact absurd hk (by simp [call2, Json.hasKey, Json.lookupKey])
      · simp at h₁
  exact ⟨⟨rfl, hg⟩, sendMessage_sequence_invariant "0xABC" [call1, call2] rfl hg⟩

/-- Whether a handler run aborted with an uncaught Python exception. -/
def aborted : Except SessionState SessionState → Bool
  | .error _ => true
  | .ok _ => false

/-- C8 fails as stated, in both halves, at concrete inputs: (1) an
eligibility request answered with HTTP 500 and the parseable body
`\x7b"canChat": false\x7d` is returned verbatim — the result carries no
`error` field, so a non-2xx status is not normalized to an
`\x7berror: string\x7d` value; (2) a chat exchange whose successful response
carries the unconvertible cost `null` makes the handler raise an uncaught
`TypeError` at the `float(response["cost"])` conversion, a fault propagated
past the client boundary. -/
theorem errorNormalization_counterexample :
    (check_eligibility "0xABC" 1
        (.ok 500 (Json.obj [("canChat", Json.bool false)]))).hasKey "error"
      = false ∧
    aborted (chatInputHandler "hi" "10:07:00" "n" "u9"
        (Json.obj [("response", Json.str "ok"), ("cost", Json.null)])
        "10:07:01" sLive)
      = true :=
  ⟨rfl, rfl⟩

/-- C8 (amended): every raised transport exception (network failure,
timeout, or a body `.json()` cannot parse) is normalized at the client
boundary — the five JSON calls return the object `\x7berror: string\x7d`,
`clear_session` returns `false`, `check_health` returns `(false, none)` —
and the request functions themselves never throw. A non-2xx status,
however, is not inspected by the JSON calls: the parsed body is returned
verbatim, whatever its shape; and the chat handler itself can still raise
on a malformed `cost` field (see the counterexample). -/
theorem transport_errors_normalized (ua sid msg : String) (mid : Nat) :
    check_eligibility ua mid .exn = errObj "Unable to check eligibility" ∧
    get_credits ua .exn = errObj "Unable to fetch credits" ∧
    get_models .exn = errObj "Unable to fetch models" ∧
    send_chat_message ua mid msg sid .exn = errObj "Unable to send message" ∧
    get_chat_history sid .exn = errObj "Unable to fetch history" ∧
    clear_session sid .exn = false ∧
    check_health .exn = (false, none) ∧
    (∀ m, (errObj m).lookupKey "error" = some (.str m)) ∧
    (∀ st b, check_eligibility ua mid (.ok st b) = b) ∧
    (∀ st b, get_credits ua (.ok st b) = b) ∧
    (∀ st b, get_models (.ok st b) = b) ∧
    (∀ st b, send_chat_message ua mid msg sid (.ok st b) = b) ∧
    (∀ st b, get_chat_history sid (.ok st b) = b) :=
  ⟨rfl, rfl, rfl, rfl, rfl, rfl, rfl, fun _ => rfl, fun _ _ => rfl,
    fun _ _ => rfl, fun _ _ => rfl, fun _ _ => rfl, fun _ _ => rfl⟩

theorem pyJoin_map_exportLine (msgs : List Message) :
    pyJoin "\n\n" (msgs.map exportLine) = renderSpecExport msgs := by
  induction msgs with
  | nil => rfl
  | cons m ms ih =>
    cases ms with
    | nil => rfl
    | cons m₂ ms₂ =>
      simp only [List.map_cons] at ih ⊢
      rw [renderSpecExport, ← ih]
      rfl

/-- C9: export is a pure function of the message log (its model takes
nothing else): an empty log yields the "nothing to export" warning and no
file, and a nonempty log yields exactly the spec's rendering — one
`"<Role>: <content>"` line per message, consecutive lines joined by a blank
line. -/
theorem exportChat_renders (msgs : List Message) :
    (exportChat msgs = none ↔ msgs = []) ∧
    (msgs ≠ [] → exportChat msgs = some (renderSpecExport msgs)) := by
  constructor
  · unfold exportChat
    cases msgs <;> simp
  · intro hne
    unfold exportChat
    rw [if_neg (by simpa using hne), pyJoin_map_exportLine]

theorem exportChat_renders_witness :
    (sLive.chat_history ≠ [] ∧
      exportChat sLive.chat_history = some (renderSpecExport sLive.chat_history)) ∧
    renderSpecExport sLive.chat_history = "User: hello\n\nAssistant: hi there" :=
  ⟨⟨by simp [sLive], (exportChat_renders sLive.chat_history).2 (by simp [sLive])⟩,
    rfl⟩
